import Mathlib

/-!
# CronJob admission webhook

A shallow embedding of `internal/v2/webhook/cronjob_webhook.go`: the defaulter
(`Default`, `applyDefaults`) and the validator (`ValidateCreate`,
`ValidateUpdate`, `ValidateDelete`, `validateCronJob` and its helpers),
followed by the status tracking of the reconciler as the spec describes it.

Go pointers to scalars (`*bool`, `*int32`, `*int64`) are `Option` values, `nil`
being `none`; a Go `error` is an `Option` of an error value. `int32` values are
only copied by this file, never computed on, so they are integers here.
Log calls have no effect on any result and are left out.
-/

namespace CronJobWebhook

/-! ## Data model -/

/-- Modelled from the spec: the Go string type `ConcurrencyPolicy` of package
`api/v1`, whose declaration is not among the sources. -/
abbrev ConcurrencyPolicy := String

/-- Modelled from the spec: the constant `AllowConcurrent` of package `api/v1`. -/
def AllowConcurrent : ConcurrencyPolicy := "Allow"

/-- Modelled from the spec: the constant `ForbidConcurrent` of package `api/v1`. -/
def ForbidConcurrent : ConcurrencyPolicy := "Forbid"

/-- Modelled from the spec: the constant `ReplaceConcurrent` of package `api/v1`. -/
def ReplaceConcurrent : ConcurrencyPolicy := "Replace"

/-- Modelled from the spec: the work-unit template of a schedule, which the
webhook never reads; its content is kept as one uninterpreted value. -/
structure JobTemplateSpec where
  raw : String
  deriving DecidableEq, Repr

/-- Modelled from the spec: the struct `CronJobSpec` of package `api/v1`
(section 3 of the spec), with the field names the webhook uses. -/
structure CronJobSpec where
  Schedule : String
  StartingDeadlineSeconds : Option Int
  ConcurrencyPolicy : ConcurrencyPolicy
  Suspend : Option Bool
  JobTemplate : JobTemplateSpec
  SuccessfulJobsHistoryLimit : Option Int
  FailedJobsHistoryLimit : Option Int
  deriving DecidableEq, Repr

/-- Modelled from the spec: the struct `CronJobStatus` of package `api/v1`:
the names of the active work-units and the two optional timestamps. -/
structure CronJobStatus where
  Active : List String
  LastScheduleTime : Option Int
  LastSuccessfulTime : Option Int
  deriving DecidableEq, Repr

/-- Modelled from the spec: the struct `CronJob` of package `api/v1`: the
identity (namespace and name of the embedded `ObjectMeta`), `Spec`, `Status`. -/
structure CronJob where
  Namespace : String
  Name : String
  Spec : CronJobSpec
  Status : CronJobStatus
  deriving DecidableEq, Repr

/-- A `runtime.Object` as the webhook entry points receive it: either a
`*CronJob`, or a value of another Go type, known by the name `%T` prints. -/
inductive RuntimeObject where
  | cronJob (c : CronJob)
  | other (typeName : String)
  deriving DecidableEq, Repr

/-- The struct `CronJobCustomDefaulter`: the configured default values. -/
structure CronJobCustomDefaulter where
  DefaultConcurrencyPolicy : ConcurrencyPolicy
  DefaultSuspend : Bool
  DefaultSuccessfulJobsHistoryLimit : Int
  DefaultFailedJobsHistoryLimit : Int
  deriving DecidableEq, Repr

/-- The struct `CronJobCustomValidator`, which has no fields. -/
structure CronJobCustomValidator where
  deriving DecidableEq, Repr

/-- The defaulter that `SetupCronJobWebhookWithManager` registers. -/
def registeredDefaulter : CronJobCustomDefaulter :=
  { DefaultConcurrencyPolicy := AllowConcurrent
    DefaultSuspend := false
    DefaultSuccessfulJobsHistoryLimit := 3
    DefaultFailedJobsHistoryLimit := 1 }

/-! ## Field errors of the Kubernetes API machinery -/

/-- Modelled from the spec: the error kinds of `field.ErrorType`; the webhook
only builds `Invalid` ones. -/
inductive ErrorType where
  | NotFound | Required | Duplicate | Invalid | NotSupported
  | Forbidden | TooLong | TooMany | InternalError | TypeInvalid
  deriving DecidableEq, Repr

/-- Modelled from the spec: a `field.Path` built by `NewPath` and `Child`
(index and key subscripts, which the webhook does not use, are left out). -/
inductive Path where
  | root (name : String)
  | child (parent : Path) (name : String)
  deriving DecidableEq, Repr

/-- The call `field.NewPath(name)`. -/
def NewPath (name : String) : Path := Path.root name

/-- The method `Path.Child(name)`. -/
def Path.Child (p : Path) (name : String) : Path := Path.child p name

/-- The method `Path.String()`: the names from the root, joined by dots. -/
def Path.String : Path → String
  | Path.root name => name
  | Path.child parent name => parent.String ++ "." ++ name

/-- Modelled from the spec: a `field.Error`: kind (the Go field `Type`), field
path, the rejected value (always a string in this file) and the detail message. -/
structure FieldError where
  Type_ : ErrorType
  Field : String
  BadValue : String
  Detail : String
  deriving DecidableEq, Repr

/-- The call `field.Invalid(path, value, detail)`. -/
def Invalid (fldPath : Path) (value : String) (detail : String) : FieldError :=
  { Type_ := ErrorType.Invalid, Field := fldPath.String, BadValue := value, Detail := detail }

/-- Modelled from the spec: the constant `DNS1035LabelMaxLength` of
`k8s.io/apimachinery/pkg/util/validation`, the platform maximum label length. -/
def DNS1035LabelMaxLength : Nat := 63

/-- Modelled from the spec: the structured rejection `apierrors.NewInvalid`
returns: reason Invalid (HTTP 422) for a group, kind and name, with the list
of field errors it was given as its causes. -/
structure StatusError where
  Code : Nat
  Group : String
  Kind : String
  Name : String
  Causes : List FieldError
  deriving DecidableEq, Repr

/-- The call `apierrors.NewInvalid(schema.GroupKind{group, kind}, name, errs)`. -/
def NewInvalid (group kind name : String) (errs : List FieldError) : StatusError :=
  { Code := 422, Group := group, Kind := kind, Name := name, Causes := errs }

/-- A Go `error` value as this file produces it: a message made by
`fmt.Errorf`, or the structured rejection made by `apierrors.NewInvalid`. -/
inductive GoError where
  | errorf (msg : String)
  | status (e : StatusError)
  deriving DecidableEq, Repr

/-- The type `admission.Warnings`, a list of strings. -/
abbrev Warnings := List String

/-- The cron parser `cron.ParseStandard` as the webhook sees it: for a
schedule string, the error message when parsing fails and `none` when it
succeeds (the parsed schedule itself is discarded by the caller). -/
abbrev CronParser := String → Option String

/-! ## Defaulter -/

/-- The method `applyDefaults`: fills each unset optional field of the spec
with the configured default, one field after the other. -/
def applyDefaults (d : CronJobCustomDefaulter) (cronJob : CronJob) : CronJob :=
  let c1 : CronJob :=
    if cronJob.Spec.ConcurrencyPolicy = "" then
      { cronJob with Spec := { cronJob.Spec with ConcurrencyPolicy := d.DefaultConcurrencyPolicy } }
    else cronJob
  let c2 : CronJob :=
    if c1.Spec.Suspend = none then
      { c1 with Spec := { c1.Spec with Suspend := some d.DefaultSuspend } }
    else c1
  let c3 : CronJob :=
    if c2.Spec.SuccessfulJobsHistoryLimit = none then
      { c2 with Spec := { c2.Spec with
          SuccessfulJobsHistoryLimit := some d.DefaultSuccessfulJobsHistoryLimit } }
    else c2
  if c3.Spec.FailedJobsHistoryLimit = none then
    { c3 with Spec := { c3.Spec with
        FailedJobsHistoryLimit := some d.DefaultFailedJobsHistoryLimit } }
  else c3

/-- The method `Default`: fails on an object that is not a CronJob, and
otherwise applies the defaults in place. The result is the object after the
call together with the returned error. -/
def Default (d : CronJobCustomDefaulter) (obj : RuntimeObject) : RuntimeObject × Option GoError :=
  match obj with
  | RuntimeObject.cronJob cronjob => (RuntimeObject.cronJob (applyDefaults d cronjob), none)
  | RuntimeObject.other typeName =>
      (obj, some (GoError.errorf ("expected an CronJob object but got " ++ typeName)))

/-! ## Validator -/

/-- The function `validateCronJobName`: a name longer than 52 bytes is
rejected (`len` of a Go string counts bytes). -/
def validateCronJobName (cronjob : CronJob) : Option FieldError :=
  if cronjob.Name.utf8ByteSize > DNS1035LabelMaxLength - 11 then
    some (Invalid ((NewPath "metadata").Child "name") cronjob.Name
      "must be no more than 52 characters")
  else none

/-- The function `validateScheduleFormat`: the parser decides, and its
message becomes the detail of the field error. -/
def validateScheduleFormat (ParseStandard : CronParser) (schedule : String) (fldPath : Path) :
    Option FieldError :=
  match ParseStandard schedule with
  | some err => some (Invalid fldPath schedule err)
  | none => none

/-- The function `validateCronJobSpec`. -/
def validateCronJobSpec (ParseStandard : CronParser) (cronjob : CronJob) : Option FieldError :=
  validateScheduleFormat ParseStandard cronjob.Spec.Schedule ((NewPath "spec").Child "schedule")

/-- The function `validateCronJob`: collects the name error and the schedule
error, in this order, and wraps a non-empty list into one rejection. -/
def validateCronJob (ParseStandard : CronParser) (cronjob : CronJob) : Option GoError :=
  let allErrs : List FieldError := []
  let allErrs :=
    match validateCronJobName cronjob with
    | some err => allErrs ++ [err]
    | none => allErrs
  let allErrs :=
    match validateCronJobSpec ParseStandard cronjob with
    | some err => allErrs ++ [err]
    | none => allErrs
  if allErrs.length = 0 then none
  else some (GoError.status
    (NewInvalid "batch.tutorial.kubebuilder.io" "CronJob" cronjob.Name allErrs))

/-- The method `ValidateCreate`. -/
def ValidateCreate (ParseStandard : CronParser) (_v : CronJobCustomValidator)
    (obj : RuntimeObject) : Warnings × Option GoError :=
  match obj with
  | RuntimeObject.cronJob cronjob => ([], validateCronJob ParseStandard cronjob)
  | RuntimeObject.other typeName =>
      ([], some (GoError.errorf ("expected a CronJob object but got " ++ typeName)))

/-- The method `ValidateUpdate`: only the new object is looked at. -/
def ValidateUpdate (ParseStandard : CronParser) (_v : CronJobCustomValidator)
    (_oldObj newObj : RuntimeObject) : Warnings × Option GoError :=
  match newObj with
  | RuntimeObject.cronJob cronjob => ([], validateCronJob ParseStandard cronjob)
  | RuntimeObject.other typeName =>
      ([], some (GoError.errorf ("expected a CronJob object for the newObj but got " ++ typeName)))

/-- The method `ValidateDelete`: nothing is validated. -/
def ValidateDelete (_v : CronJobCustomValidator) (obj : RuntimeObject) :
    Warnings × Option GoError :=
  match obj with
  | RuntimeObject.cronJob _ => ([], none)
  | RuntimeObject.other typeName =>
      ([], some (GoError.errorf ("expected a CronJob object but got " ++ typeName)))

/-! ## Reconciler: history and status tracking

The controller itself is not among the sources (only its test is); the
definitions of this section follow sections 3, 4.5 and 4.6 of the spec. Store
operations are taken to succeed: a pass that aborts on a store error writes no
status at all.
-/

/-- A CronJob with every optional field of the spec left unset. -/
def sampleUnset : CronJob :=
  { Namespace := "default", Name := "test-cronjob",
    Spec := { Schedule := "1 * * * *", StartingDeadlineSeconds := none,
              ConcurrencyPolicy := "", Suspend := none,
              JobTemplate := { raw := "test-container" },
              SuccessfulJobsHistoryLimit := none, FailedJobsHistoryLimit := none },
    Status := { Active := [], LastScheduleTime := none, LastSuccessfulTime := none } }

/-- A CronJob with every optional field of the spec set by the user. -/
def sampleSet : CronJob :=
  { sampleUnset with
    Spec := { sampleUnset.Spec with
              ConcurrencyPolicy := ForbidConcurrent, Suspend := some true,
              SuccessfulJobsHistoryLimit := some 7, FailedJobsHistoryLimit := some 0 } }

/-- A CronJob whose name is the given number of letters `a`. -/
def sampleNamed (n : Nat) : CronJob :=
  { sampleUnset with Name := String.mk (List.replicate n 'a') }

/-- A CronJob with the given schedule string and a valid name. -/
def sampleScheduled (schedule : String) : CronJob :=
  { sampleUnset with Spec := { sampleUnset.Spec with Schedule := schedule } }

/-- A CronJob whose name (53 letters) and schedule (the empty string) are both bad. -/
def sampleBothBad : CronJob :=
  { sampleNamed 53 with Spec := { sampleUnset.Spec with Schedule := "" } }

/-- A parser used to run the validator on concrete objects: it rejects the
empty string and accepts every other string. -/
def sampleParser : CronParser :=
  fun spec => if spec = "" then some "Empty spec string" else none

/-- A CronJob with a valid name and schedule whose ConcurrencyPolicy is a
string outside Allow, Forbid and Replace. -/
def sampleBadPolicy : CronJob :=
  { sampleUnset with Spec := { sampleUnset.Spec with ConcurrencyPolicy := "Sometimes" } }

/-- A CronJob with a valid name and schedule whose two history limits are
set to negative numbers. -/
def sampleNegativeLimits : CronJob :=
  { sampleUnset with
    Spec := { sampleUnset.Spec with
              SuccessfulJobsHistoryLimit := some (-1), FailedJobsHistoryLimit := some (-2) } }

/-- The three well-formed concurrency policies. -/
def wellFormedPolicies : List ConcurrencyPolicy :=
  [AllowConcurrent, ForbidConcurrent, ReplaceConcurrent]

/-! ## Theorems -/

/-- C1. Defaulting is idempotent: applying the defaults of a configuration
twice gives the same CronJob, in every field, as applying them once. -/
theorem applyDefaults_idempotent (d : CronJobCustomDefaulter) (c : CronJob) :
    applyDefaults d (applyDefaults d c) = applyDefaults d c := by
  obtain ⟨ns, name, ⟨sched, dl, pol, susp, tmpl, succ, fail⟩, st⟩ := c
  cases susp <;> cases succ <;> cases fail <;>
    by_cases hp : pol = "" <;>
    by_cases hd : d.DefaultConcurrencyPolicy = "" <;>
    simp [applyDefaults, hp, hd]

/-- C2. Defaulting never overwrites a value that is set: a non-empty
ConcurrencyPolicy, a non-nil Suspend, a non-nil SuccessfulJobsHistoryLimit and
a non-nil FailedJobsHistoryLimit each come out of applyDefaults unchanged,
whatever the configuration; in particular Suspend = true stays true. -/
theorem applyDefaults_keeps_set_fields (d : CronJobCustomDefaulter) (c : CronJob) :
    (c.Spec.ConcurrencyPolicy ≠ "" →
      (applyDefaults d c).Spec.ConcurrencyPolicy = c.Spec.ConcurrencyPolicy) ∧
    (c.Spec.Suspend ≠ none → (applyDefaults d c).Spec.Suspend = c.Spec.Suspend) ∧
    (c.Spec.SuccessfulJobsHistoryLimit ≠ none →
      (applyDefaults d c).Spec.SuccessfulJobsHistoryLimit = c.Spec.SuccessfulJobsHistoryLimit) ∧
    (c.Spec.FailedJobsHistoryLimit ≠ none →
      (applyDefaults d c).Spec.FailedJobsHistoryLimit = c.Spec.FailedJobsHistoryLimit) ∧
    (c.Spec.Suspend = some true → d.DefaultSuspend = false →
      (applyDefaults d c).Spec.Suspend = some true) := by
  obtain ⟨ns, name, ⟨sched, dl, pol, susp, tmpl, succ, fail⟩, st⟩ := c
  refine ⟨?_, ?_, ?_, ?_, ?_⟩
  · intro hp
    cases susp <;> cases succ <;> cases fail <;> simp_all [applyDefaults]
  · intro hs
    cases susp <;> cases succ <;> cases fail <;>
      by_cases hp : pol = "" <;> simp_all [applyDefaults]
  · intro hs
    cases susp <;> cases succ <;> cases fail <;>
      by_cases hp : pol = "" <;> simp_all [applyDefaults]
  · intro hs
    cases susp <;> cases succ <;> cases fail <;>
      by_cases hp : pol = "" <;> simp_all [applyDefaults]
  · intro hs _
    cases susp <;> cases succ <;> cases fail <;>
      by_cases hp : pol = "" <;> simp_all [applyDefaults]

/-- Witness for C2: a CronJob with Forbid, Suspend = true and limits 7 and 0
keeps all four under the registered configuration (Allow, false, 3, 1). -/
theorem applyDefaults_keeps_set_fields_witness :
    (applyDefaults registeredDefaulter sampleSet).Spec.ConcurrencyPolicy = "Forbid" ∧
    (applyDefaults registeredDefaulter sampleSet).Spec.Suspend = some true ∧
    (applyDefaults registeredDefaulter sampleSet).Spec.SuccessfulJobsHistoryLimit = some 7 ∧
    (applyDefaults registeredDefaulter sampleSet).Spec.FailedJobsHistoryLimit = some 0 ∧
    (applyDefaults registeredDefaulter sampleSet).Spec.Suspend = some true :=
  ⟨(applyDefaults_keeps_set_fields registeredDefaulter sampleSet).1 (by decide),
   (applyDefaults_keeps_set_fields registeredDefaulter sampleSet).2.1 (by decide),
   (applyDefaults_keeps_set_fields registeredDefaulter sampleSet).2.2.1 (by decide),
   (applyDefaults_keeps_set_fields registeredDefaulter sampleSet).2.2.2.1 (by decide),
   (applyDefaults_keeps_set_fields registeredDefaulter sampleSet).2.2.2.2 rfl rfl⟩

/-- C3. Defaulting substitutes the configured default for each unset optional
field: an empty ConcurrencyPolicy becomes DefaultConcurrencyPolicy, a nil
Suspend points to DefaultSuspend, a nil SuccessfulJobsHistoryLimit to
DefaultSuccessfulJobsHistoryLimit and a nil FailedJobsHistoryLimit to
DefaultFailedJobsHistoryLimit; the registered configuration holds Allow,
false, 3 and 1. -/
theorem applyDefaults_fills_unset_fields (d : CronJobCustomDefaulter) (c : CronJob) :
    (c.Spec.ConcurrencyPolicy = "" →
      (applyDefaults d c).Spec.ConcurrencyPolicy = d.DefaultConcurrencyPolicy) ∧
    (c.Spec.Suspend = none → (applyDefaults d c).Spec.Suspend = some d.DefaultSuspend) ∧
    (c.Spec.SuccessfulJobsHistoryLimit = none →
      (applyDefaults d c).Spec.SuccessfulJobsHistoryLimit =
        some d.DefaultSuccessfulJobsHistoryLimit) ∧
    (c.Spec.FailedJobsHistoryLimit = none →
      (applyDefaults d c).Spec.FailedJobsHistoryLimit =
        some d.DefaultFailedJobsHistoryLimit) ∧
    registeredDefaulter.DefaultConcurrencyPolicy = "Allow" ∧
    registeredDefaulter.DefaultSuspend = false ∧
    registeredDefaulter.DefaultSuccessfulJobsHistoryLimit = 3 ∧
    registeredDefaulter.DefaultFailedJobsHistoryLimit = 1 := by
  obtain ⟨ns, name, ⟨sched, dl, pol, susp, tmpl, succ, fail⟩, st⟩ := c
  refine ⟨?_, ?_, ?_, ?_, rfl, rfl, rfl, rfl⟩
  · intro hp
    cases susp <;> cases succ <;> cases fail <;> simp_all [applyDefaults]
  · intro hs
    cases succ <;> cases fail <;> by_cases hp : pol = "" <;> simp_all [applyDefaults]
  · intro hs
    cases susp <;> cases fail <;> by_cases hp : pol = "" <;> simp_all [applyDefaults]
  · intro hs
    cases susp <;> cases succ <;> by_cases hp : pol = "" <;> simp_all [applyDefaults]

/-- Witness for C3: a CronJob with all four optional fields unset comes out
of the registered defaulter with Allow, false, 3 and 1. -/
theorem applyDefaults_fills_unset_fields_witness :
    (applyDefaults registeredDefaulter sampleUnset).Spec.ConcurrencyPolicy = "Allow" ∧
    (applyDefaults registeredDefaulter sampleUnset).Spec.Suspend = some false ∧
    (applyDefaults registeredDefaulter sampleUnset).Spec.SuccessfulJobsHistoryLimit = some 3 ∧
    (applyDefaults registeredDefaulter sampleUnset).Spec.FailedJobsHistoryLimit = some 1 :=
  ⟨(applyDefaults_fills_unset_fields registeredDefaulter sampleUnset).1 rfl,
   (applyDefaults_fills_unset_fields registeredDefaulter sampleUnset).2.1 rfl,
   (applyDefaults_fills_unset_fields registeredDefaulter sampleUnset).2.2.1 rfl,
   (applyDefaults_fills_unset_fields registeredDefaulter sampleUnset).2.2.2.1 rfl⟩

/-- C4. Name validation rejects exactly the names that are too long:
validateCronJobName returns an error if and only if the length of the name
exceeds 63 - 11 = 52, so a name of length 52 is accepted and one of length 53
is rejected; the error is a field-invalid error at path metadata.name that
carries the name. -/
theorem validateCronJobName_rejects_iff_too_long (c : CronJob) :
    (validateCronJobName c ≠ none ↔ 63 - 11 < c.Name.utf8ByteSize) ∧
    (validateCronJobName c ≠ none ↔ 52 < c.Name.utf8ByteSize) ∧
    (c.Name.utf8ByteSize = 52 → validateCronJobName c = none) ∧
    (c.Name.utf8ByteSize = 53 → validateCronJobName c ≠ none) ∧
    (∀ e, validateCronJobName c = some e →
      e.Type_ = ErrorType.Invalid ∧ e.Field = "metadata.name" ∧ e.BadValue = c.Name) := by
  have hpath : ((NewPath "metadata").Child "name").String = "metadata.name" := by decide
  refine ⟨?_, ?_, ?_, ?_, ?_⟩
  · unfold validateCronJobName DNS1035LabelMaxLength
    split <;> simp_all
  · unfold validateCronJobName DNS1035LabelMaxLength
    split <;> simp_all
  · intro h
    simp [validateCronJobName, DNS1035LabelMaxLength, h]
  · intro h
    simp [validateCronJobName, DNS1035LabelMaxLength, h]
  · intro e he
    unfold validateCronJobName at he
    split at he
    · simp only [Option.some.injEq] at he
      subst he
      exact ⟨rfl, hpath, rfl⟩
    · simp at he

/-- Witness for C4: the name made of 52 letters is accepted and the name made
of 53 letters is rejected. -/
theorem validateCronJobName_rejects_iff_too_long_witness :
    validateCronJobName (sampleNamed 52) = none ∧
    validateCronJobName (sampleNamed 53) ≠ none :=
  ⟨(validateCronJobName_rejects_iff_too_long (sampleNamed 52)).2.2.1 (by decide),
   (validateCronJobName_rejects_iff_too_long (sampleNamed 53)).2.2.2.1 (by decide)⟩

/-- The list of field errors validateCronJob collects: the name error, if
any, followed by the schedule error, if any. -/
theorem validateCronJob_eq (p : CronParser) (c : CronJob) :
    validateCronJob p c =
      if (validateCronJobName c).toList ++ (validateCronJobSpec p c).toList = [] then none
      else some (GoError.status (NewInvalid "batch.tutorial.kubebuilder.io" "CronJob" c.Name
        ((validateCronJobName c).toList ++ (validateCronJobSpec p c).toList))) := by
  unfold validateCronJob
  cases validateCronJobName c <;> cases validateCronJobSpec p c <;> simp

/-- C6. Admission validation aggregates all field errors: validateCronJob
returns nil if and only if both validateCronJobName and validateCronJobSpec
return nil; otherwise it returns one Invalid rejection (code 422, for the
CronJob of that name) whose error list is the name error, when the name check
fails, followed by the schedule error, when the schedule check fails; when
both fail the list holds exactly these two errors, name first. -/
theorem validateCronJob_aggregates_all_errors (p : CronParser) (c : CronJob) :
    (validateCronJob p c = none ↔
      validateCronJobName c = none ∧ validateCronJobSpec p c = none) ∧
    (¬ (validateCronJobName c = none ∧ validateCronJobSpec p c = none) →
      ∃ se : StatusError, validateCronJob p c = some (GoError.status se) ∧
        se.Code = 422 ∧ se.Kind = "CronJob" ∧ se.Name = c.Name ∧
        se.Causes = (validateCronJobName c).toList ++ (validateCronJobSpec p c).toList ∧
        (∀ e, validateCronJobName c = some e → e ∈ se.Causes) ∧
        (∀ e, validateCronJobSpec p c = some e → e ∈ se.Causes)) ∧
    (∀ e1 e2, validateCronJobName c = some e1 → validateCronJobSpec p c = some e2 →
      ∃ se : StatusError, validateCronJob p c = some (GoError.status se) ∧
        se.Causes = [e1, e2] ∧ se.Causes.length = 2) := by
  rw [validateCronJob_eq]
  refine ⟨?_, ?_, ?_⟩
  · cases validateCronJobName c <;> cases validateCronJobSpec p c <;> simp
  · intro h
    refine ⟨NewInvalid "batch.tutorial.kubebuilder.io" "CronJob" c.Name
      ((validateCronJobName c).toList ++ (validateCronJobSpec p c).toList), ?_, rfl, rfl, rfl,
      rfl, ?_, ?_⟩
    · cases h1 : validateCronJobName c <;> cases h2 : validateCronJobSpec p c <;>
        simp_all
    · intro e he
      simp [NewInvalid, he]
    · intro e he
      simp [NewInvalid, he]
  · intro e1 e2 h1 h2
    refine ⟨NewInvalid "batch.tutorial.kubebuilder.io" "CronJob" c.Name [e1, e2], ?_, rfl, rfl⟩
    simp [h1, h2]

/-- Witness for C6: a CronJob with a 53-letter name and an empty schedule is
rejected once, with the name error first and the schedule error second. -/
theorem validateCronJob_aggregates_all_errors_witness :
    ∃ se : StatusError, validateCronJob sampleParser sampleBothBad = some (GoError.status se) ∧
      se.Causes =
        [Invalid ((NewPath "metadata").Child "name") sampleBothBad.Name
           "must be no more than 52 characters",
         Invalid ((NewPath "spec").Child "schedule") "" "Empty spec string"] ∧
      se.Causes.length = 2 :=
  (validateCronJob_aggregates_all_errors sampleParser sampleBothBad).2.2 _ _
    (by decide) (by decide)

/-- C7. Defaulting cannot change the validation verdict: applyDefaults leaves
the name and Spec.Schedule unchanged, so validateCronJob gives the same result
on the defaulted object as on the original, also after a second defaulting
with any configuration; an object accepted after defaulting is therefore
accepted again when validated a second time, defaulted again or not. -/
theorem validateCronJob_applyDefaults (p : CronParser) (d d2 : CronJobCustomDefaulter)
    (c : CronJob) :
    (applyDefaults d c).Name = c.Name ∧
    (applyDefaults d c).Spec.Schedule = c.Spec.Schedule ∧
    validateCronJob p (applyDefaults d c) = validateCronJob p c ∧
    validateCronJob p (applyDefaults d2 (applyDefaults d c)) = validateCronJob p c ∧
    (validateCronJob p (applyDefaults d c) = none →
      validateCronJob p (applyDefaults d c) = none ∧
      validateCronJob p (applyDefaults d (applyDefaults d c)) = none ∧
      validateCronJob p (applyDefaults d2 (applyDefaults d c)) = none) := by
  have hname : ∀ (e : CronJobCustomDefaulter) (x : CronJob), (applyDefaults e x).Name = x.Name := by
    intro e x
    unfold applyDefaults
    simp only []
    split_ifs <;> rfl
  have hsched : ∀ (e : CronJobCustomDefaulter) (x : CronJob),
      (applyDefaults e x).Spec.Schedule = x.Spec.Schedule := by
    intro e x
    unfold applyDefaults
    simp only []
    split_ifs <;> rfl
  have hval : ∀ (e : CronJobCustomDefaulter) (x : CronJob),
      validateCronJob p (applyDefaults e x) = validateCronJob p x := by
    intro e x
    simp only [validateCronJob, validateCronJobName, validateCronJobSpec, hname, hsched]
  refine ⟨hname d c, hsched d c, hval d c, ?_, ?_⟩
  · rw [hval d2, hval d]
  · intro h
    refine ⟨h, ?_, ?_⟩
    · rw [hval d]; exact h
    · rw [hval d2]; exact h

/-- Witness for C7: the CronJob with schedule "1 * * * *" and no optional
field set is accepted after defaulting, and accepted again after that. -/
theorem validateCronJob_applyDefaults_witness :
    validateCronJob sampleParser (applyDefaults registeredDefaulter sampleUnset) = none ∧
    validateCronJob sampleParser
      (applyDefaults registeredDefaulter (applyDefaults registeredDefaulter sampleUnset)) = none ∧
    validateCronJob sampleParser
      (applyDefaults registeredDefaulter (applyDefaults registeredDefaulter sampleUnset)) = none :=
  (validateCronJob_applyDefaults sampleParser registeredDefaulter registeredDefaulter
    sampleUnset).2.2.2.2 (by decide)

/-- C8. The schedule error carries the field path and the parse message:
validateCronJobSpec returns an error if and only if the cron parser rejects
Spec.Schedule, and that error is a field-invalid error with path
spec.schedule, the schedule string as bad value and the message of the parser
as detail. -/
theorem validateCronJobSpec_error_iff_parse_error (p : CronParser) (c : CronJob) :
    (validateCronJobSpec p c ≠ none ↔ p c.Spec.Schedule ≠ none) ∧
    (∀ msg, p c.Spec.Schedule = some msg →
      validateCronJobSpec p c =
        some { Type_ := ErrorType.Invalid, Field := "spec.schedule",
               BadValue := c.Spec.Schedule, Detail := msg }) ∧
    (∀ e, validateCronJobSpec p c = some e →
      e.Type_ = ErrorType.Invalid ∧ e.Field = "spec.schedule" ∧
      e.BadValue = c.Spec.Schedule ∧ p c.Spec.Schedule = some e.Detail) := by
  have hpath : ((NewPath "spec").Child "schedule").String = "spec.schedule" := by decide
  unfold validateCronJobSpec validateScheduleFormat
  refine ⟨?_, ?_, ?_⟩
  · cases p c.Spec.Schedule <;> simp
  · intro msg h
    simp [h, Invalid, hpath]
  · intro e he
    cases h : p c.Spec.Schedule with
    | none => simp [h] at he
    | some msg =>
      simp only [h, Option.some.injEq] at he
      subst he
      exact ⟨rfl, hpath, rfl, rfl⟩

/-- Witness for C8: on the empty schedule the parser message "Empty spec
string" becomes the detail of an Invalid error at spec.schedule. -/
theorem validateCronJobSpec_error_iff_parse_error_witness :
    validateCronJobSpec sampleParser (sampleScheduled "") =
      some { Type_ := ErrorType.Invalid, Field := "spec.schedule",
             BadValue := "", Detail := "Empty spec string" } :=
  (validateCronJobSpec_error_iff_parse_error sampleParser (sampleScheduled "")).2.1
    "Empty spec string" (by decide)

/-- C9. Delete performs no validation: for every CronJob, whatever its name
and schedule, ValidateDelete returns no warnings and no error; this holds for
a CronJob that validateCronJob rejects for both its name and its schedule. -/
theorem ValidateDelete_accepts_every_CronJob (v : CronJobCustomValidator) (c : CronJob) :
    ValidateDelete v (RuntimeObject.cronJob c) = ([], none) ∧
    ValidateDelete v (RuntimeObject.cronJob sampleBothBad) = ([], none) ∧
    validateCronJobName sampleBothBad ≠ none ∧
    validateCronJobSpec sampleParser sampleBothBad ≠ none :=
  ⟨rfl, rfl, by decide, by decide⟩

/-- C10. The defaulter fails only on a type mismatch: Default returns an
error if and only if the object is not a CronJob; for every CronJob it
returns nil and the object becomes applyDefaults of it. -/
theorem Default_error_iff_not_CronJob (d : CronJobCustomDefaulter) (obj : RuntimeObject) :
    ((Default d obj).2 ≠ none ↔ ∀ c, obj ≠ RuntimeObject.cronJob c) ∧
    (∀ c, obj = RuntimeObject.cronJob c →
      Default d obj = (RuntimeObject.cronJob (applyDefaults d c), none)) ∧
    (∀ typeName, obj = RuntimeObject.other typeName →
      Default d obj =
        (obj, some (GoError.errorf ("expected an CronJob object but got " ++ typeName)))) := by
  refine ⟨?_, ?_, ?_⟩
  · cases obj with
    | cronJob c => simp [Default]
    | other t => simp [Default]
  · intro c h
    subst h
    rfl
  · intro t h
    subst h
    rfl

/-- Witness for C10: a CronJob with a 53-letter name and an empty schedule
is defaulted without error, and a Job object makes Default fail. -/
theorem Default_error_iff_not_CronJob_witness :
    Default registeredDefaulter (RuntimeObject.cronJob sampleBothBad) =
      (RuntimeObject.cronJob (applyDefaults registeredDefaulter sampleBothBad), none) ∧
    Default registeredDefaulter (RuntimeObject.other "*v1.Job") =
      (RuntimeObject.other "*v1.Job",
        some (GoError.errorf ("expected an CronJob object but got " ++ "*v1.Job"))) :=
  ⟨(Default_error_iff_not_CronJob registeredDefaulter (RuntimeObject.cronJob sampleBothBad)).2.1
      sampleBothBad rfl,
   (Default_error_iff_not_CronJob registeredDefaulter (RuntimeObject.other "*v1.Job")).2.2
      "*v1.Job" rfl⟩

/-- The result of validateCronJob depends only on the name and the schedule
of the object. -/
theorem validateCronJob_congr (p : CronParser) (c c2 : CronJob)
    (hname : c2.Name = c.Name) (hsched : c2.Spec.Schedule = c.Spec.Schedule) :
    validateCronJob p c2 = validateCronJob p c := by
  simp only [validateCronJob, validateCronJobName, validateCronJobSpec, hname, hsched]

/-- The ConcurrencyPolicy after applyDefaults: the default when it was the
empty string, the submitted value otherwise. -/
theorem applyDefaults_policy (d : CronJobCustomDefaulter) (c : CronJob) :
    (applyDefaults d c).Spec.ConcurrencyPolicy =
      if c.Spec.ConcurrencyPolicy = "" then d.DefaultConcurrencyPolicy
      else c.Spec.ConcurrencyPolicy := by
  unfold applyDefaults
  simp only []
  split_ifs <;> rfl

/-- The history limits after applyDefaults: the default where the limit was
nil, the submitted value otherwise. -/
theorem applyDefaults_limits (d : CronJobCustomDefaulter) (c : CronJob) :
    (applyDefaults d c).Spec.SuccessfulJobsHistoryLimit =
      some (c.Spec.SuccessfulJobsHistoryLimit.getD d.DefaultSuccessfulJobsHistoryLimit) ∧
    (applyDefaults d c).Spec.FailedJobsHistoryLimit =
      some (c.Spec.FailedJobsHistoryLimit.getD d.DefaultFailedJobsHistoryLimit) := by
  obtain ⟨ns, name, ⟨sched, dl, pol, susp, tmpl, succ, fail⟩, st⟩ := c
  cases susp <;> cases succ <;> cases fail <;> by_cases hp : pol = "" <;>
    simp [applyDefaults, hp]

/-- C11, as the claim states it, fails: the CronJob test-cronjob with schedule
"1 * * * *" and ConcurrencyPolicy "Sometimes" is defaulted with the registered
configuration and then accepted by ValidateCreate and by ValidateUpdate (by
every parser that accepts "1 * * * *"), and its policy is still "Sometimes",
none of Allow, Forbid, Replace. -/
theorem admitted_policy_not_always_wellFormed :
    ValidateCreate sampleParser {}
      (RuntimeObject.cronJob (applyDefaults registeredDefaulter sampleBadPolicy)) = ([], none) ∧
    ValidateUpdate sampleParser {} (RuntimeObject.cronJob sampleUnset)
      (RuntimeObject.cronJob (applyDefaults registeredDefaulter sampleBadPolicy)) = ([], none) ∧
    (∀ p : CronParser, p "1 * * * *" = none →
      ValidateCreate p {}
        (RuntimeObject.cronJob (applyDefaults registeredDefaulter sampleBadPolicy)) =
          ([], none)) ∧
    (applyDefaults registeredDefaulter sampleBadPolicy).Spec.ConcurrencyPolicy = "Sometimes" ∧
    (applyDefaults registeredDefaulter sampleBadPolicy).Spec.ConcurrencyPolicy ∉
      wellFormedPolicies := by
  refine ⟨by decide, by decide, ?_, by decide, by decide⟩
  intro p hp
  have hs : (applyDefaults registeredDefaulter sampleBadPolicy).Spec.Schedule = "1 * * * *" := by
    decide
  have hn : validateCronJobName (applyDefaults registeredDefaulter sampleBadPolicy) = none := by
    decide
  simp [ValidateCreate, validateCronJob, validateCronJobSpec, validateScheduleFormat, hs, hp, hn]

/-- C11, amended. After defaulting with the registered configuration the
ConcurrencyPolicy is one of Allow, Forbid, Replace exactly when the submitted
policy was the empty string or already one of the three; so every CronJob
submitted with such a policy has a well-formed policy when it is accepted by
ValidateCreate or ValidateUpdate. Any other policy string is kept by the
defaulter, and the validator does not look at the policy: its result is the
same whatever the policy is. -/
theorem admitted_policy_wellFormed_iff (p : CronParser) (c : CronJob) :
    ((applyDefaults registeredDefaulter c).Spec.ConcurrencyPolicy ∈ wellFormedPolicies ↔
      c.Spec.ConcurrencyPolicy = "" ∨ c.Spec.ConcurrencyPolicy ∈ wellFormedPolicies) ∧
    (c.Spec.ConcurrencyPolicy = "" ∨ c.Spec.ConcurrencyPolicy ∈ wellFormedPolicies →
      (applyDefaults registeredDefaulter c).Spec.ConcurrencyPolicy ∈ wellFormedPolicies) ∧
    (c.Spec.ConcurrencyPolicy ≠ "" →
      (applyDefaults registeredDefaulter c).Spec.ConcurrencyPolicy = c.Spec.ConcurrencyPolicy) ∧
    (∀ policy : ConcurrencyPolicy,
      validateCronJob p { c with Spec := { c.Spec with ConcurrencyPolicy := policy } } =
        validateCronJob p c) := by
  have hiff : (applyDefaults registeredDefaulter c).Spec.ConcurrencyPolicy ∈ wellFormedPolicies ↔
      c.Spec.ConcurrencyPolicy = "" ∨ c.Spec.ConcurrencyPolicy ∈ wellFormedPolicies := by
    rw [applyDefaults_policy]
    by_cases h : c.Spec.ConcurrencyPolicy = ""
    · simp [h, wellFormedPolicies, registeredDefaulter]
    · simp [h]
  refine ⟨hiff, hiff.2, ?_, ?_⟩
  · intro h
    rw [applyDefaults_policy, if_neg h]
  · intro policy
    exact validateCronJob_congr p c _ rfl rfl

/-- Witness for C11: the CronJob submitted with an empty policy has the
policy Allow after defaulting, and the one submitted with Forbid keeps it. -/
theorem admitted_policy_wellFormed_iff_witness :
    (applyDefaults registeredDefaulter sampleUnset).Spec.ConcurrencyPolicy ∈ wellFormedPolicies ∧
    (applyDefaults registeredDefaulter sampleSet).Spec.ConcurrencyPolicy = "Forbid" :=
  ⟨(admitted_policy_wellFormed_iff sampleParser sampleUnset).2.1 (Or.inl rfl),
   (admitted_policy_wellFormed_iff sampleParser sampleSet).2.2.1 (by decide)⟩

/-- C12, as the claim states it, fails: the CronJob test-cronjob with schedule
"1 * * * *" and history limits -1 and -2 is defaulted with the registered
configuration and then accepted by ValidateCreate and by ValidateUpdate (by
every parser that accepts "1 * * * *"), and its limits are still -1 and -2. -/
theorem admitted_limits_not_always_nonnegative :
    ValidateCreate sampleParser {}
      (RuntimeObject.cronJob (applyDefaults registeredDefaulter sampleNegativeLimits)) =
        ([], none) ∧
    ValidateUpdate sampleParser {} (RuntimeObject.cronJob sampleUnset)
      (RuntimeObject.cronJob (applyDefaults registeredDefaulter sampleNegativeLimits)) =
        ([], none) ∧
    (∀ p : CronParser, p "1 * * * *" = none →
      ValidateCreate p {}
        (RuntimeObject.cronJob (applyDefaults registeredDefaulter sampleNegativeLimits)) =
          ([], none)) ∧
    (applyDefaults registeredDefaulter sampleNegativeLimits).Spec.SuccessfulJobsHistoryLimit =
      some (-1) ∧
    (applyDefaults registeredDefaulter sampleNegativeLimits).Spec.FailedJobsHistoryLimit =
      some (-2) ∧
    ¬ (∀ n, (applyDefaults registeredDefaulter sampleNegativeLimits).Spec.SuccessfulJobsHistoryLimit
      = some n → 0 ≤ n) := by
  refine ⟨by decide, by decide, ?_, by decide, by decide, ?_⟩
  · intro p hp
    have hs : (applyDefaults registeredDefaulter sampleNegativeLimits).Spec.Schedule =
        "1 * * * *" := by decide
    have hn : validateCronJobName (applyDefaults registeredDefaulter sampleNegativeLimits) =
        none := by decide
    simp [ValidateCreate, validateCronJob, validateCronJobSpec, validateScheduleFormat, hs, hp,
      hn]
  · intro h
    have h1 := h (-1) (by decide)
    omega

/-- C12, amended. After defaulting with the registered configuration both
SuccessfulJobsHistoryLimit and FailedJobsHistoryLimit are set: to 3 and 1
where they were nil, and to the submitted value otherwise. Each is greater
than or equal to 0 exactly when the submitted one was nil or greater than or
equal to 0; so every CronJob submitted with such limits has non-negative
limits when it is accepted by ValidateCreate or ValidateUpdate. A negative
submitted limit is kept, and the validator does not look at the limits. -/
theorem admitted_limits_set_and_nonnegative_iff (p : CronParser) (c : CronJob) :
    (applyDefaults registeredDefaulter c).Spec.SuccessfulJobsHistoryLimit =
      some (c.Spec.SuccessfulJobsHistoryLimit.getD 3) ∧
    (applyDefaults registeredDefaulter c).Spec.FailedJobsHistoryLimit =
      some (c.Spec.FailedJobsHistoryLimit.getD 1) ∧
    ((∃ n, (applyDefaults registeredDefaulter c).Spec.SuccessfulJobsHistoryLimit = some n ∧
        0 ≤ n) ↔ ∀ n, c.Spec.SuccessfulJobsHistoryLimit = some n → 0 ≤ n) ∧
    ((∃ n, (applyDefaults registeredDefaulter c).Spec.FailedJobsHistoryLimit = some n ∧
        0 ≤ n) ↔ ∀ n, c.Spec.FailedJobsHistoryLimit = some n → 0 ≤ n) ∧
    (∀ succ fail : Option Int,
      validateCronJob p { c with Spec := { c.Spec with
          SuccessfulJobsHistoryLimit := succ, FailedJobsHistoryLimit := fail } } =
        validateCronJob p c) := by
  have h := applyDefaults_limits registeredDefaulter c
  refine ⟨h.1, h.2, ?_, ?_, ?_⟩
  · rw [h.1]
    cases hs : c.Spec.SuccessfulJobsHistoryLimit with
    | none => simp [registeredDefaulter]
    | some k => simp
  · rw [h.2]
    cases hs : c.Spec.FailedJobsHistoryLimit with
    | none => simp [registeredDefaulter]
    | some k => simp
  · intro succ fail
    exact validateCronJob_congr p c _ rfl rfl

/-- Witness for C12: the CronJob submitted without limits has the limits 3
and 1 after defaulting, both non-negative. -/
theorem admitted_limits_set_and_nonnegative_iff_witness :
    (∃ n, (applyDefaults registeredDefaulter sampleUnset).Spec.SuccessfulJobsHistoryLimit =
      some n ∧ 0 ≤ n) ∧
    (∃ n, (applyDefaults registeredDefaulter sampleUnset).Spec.FailedJobsHistoryLimit =
      some n ∧ 0 ≤ n) :=
  ⟨(admitted_limits_set_and_nonnegative_iff sampleParser sampleUnset).2.2.1.2
      (fun n hn => by simp [sampleUnset] at hn),
   (admitted_limits_set_and_nonnegative_iff sampleParser sampleUnset).2.2.2.1.2
      (fun n hn => by simp [sampleUnset] at hn)⟩

/-- C14. Update validation depends only on the new object: for every new
CronJob and every old object, of any type, ValidateUpdate returns the same
result as ValidateCreate on the new object, namely no warnings and the result
of validateCronJob on the new object. -/
theorem ValidateUpdate_eq_ValidateCreate (p : CronParser) (v : CronJobCustomValidator)
    (oldObj : RuntimeObject) (new : CronJob) :
    ValidateUpdate p v oldObj (RuntimeObject.cronJob new) =
      ValidateCreate p v (RuntimeObject.cronJob new) ∧
    ValidateUpdate p v oldObj (RuntimeObject.cronJob new) = ([], validateCronJob p new) ∧
    ValidateCreate p v (RuntimeObject.cronJob new) = ([], validateCronJob p new) :=
  ⟨rfl, rfl, rfl⟩

end CronJobWebhook
